import Mathlib

/-!
Shallow embedding of parts of the carvel-kapp-controller repository:

* `pkg/deploy/kapp_restrict.go` — the restricted flag allow-lists for the
  kapp deploy tool (shared, change, and per-operation extras).
* `pkg/pkgrepository` CRDApp hooks — `blockDeletion`, `unblockDeletion`,
  `updateStatus` (retry loop) over the PackageRepository resource.
* `cli/pkg/kctrl/cmd/app/app-watcher.go` — the status tailer:
  `printTillCurrent`, `printUpdate`, `metricString`, `statusString`,
  `hasReconciled`.

Go machine integers are modelled as `Int`; timestamps (`metav1.Time`) are
modelled as `Int` Unix seconds (`.Unix()` is the value itself, `.After` is
strict `>`, `.Equal` is `=`), matching the second granularity at which the
serialized timestamps are compared in the watcher. Functions that would
dereference a nil pointer or index out of bounds in Go return `Option`/`none`
at exactly those program points.
-/

namespace KappCtrl

/-! ## Flag allow-lists (`pkg/deploy/kapp_restrict.go`) -/

def kappAllowedSharedOpts : List String := [
  "--column",
  "--debug",
  "--json",
  "--tty",
  "--dangerous-ignore-failing-api-services",
  "--dangerous-scope-to-fallback-allowed-namespaces",
  "--filter",
  "--filter-age",
  "--filter-kind",
  "--filter-kind-name",
  "--filter-kind-ns",
  "--filter-kind-ns-name",
  "--filter-name",
  "--filter-ns",
  "--kube-api-qps",
  "--kube-api-burst"]

def kappAllowedChangeOpts : List String := [
  "--diff-changes",
  "--diff-against-last-applied",
  "--diff-context",
  "--diff-line-numbers",
  "--diff-mask",
  "--diff-run",
  "--diff-summary",
  "--apply-check-interval",
  "--apply-concurrency",
  "--apply-default-update-strategy",
  "--apply-ignored",
  "--apply-timeout",
  "--wait",
  "--wait-check-interval",
  "--wait-concurrency",
  "--wait-ignored",
  "--wait-timeout"]

/-- Modelled from the spec: `exec.FlagSet` (package `pkg/exec`, not in the
excerpt) — an immutable allow-list of flag names built once at startup. -/
structure FlagSet where
  allowed : List String
deriving Repr, DecidableEq

/-- Modelled from the spec: `exec.NewFlagSet` (not in the excerpt) takes a
variadic list of string slices and builds the allow-list as their union
(here: concatenation, membership being what matters). -/
def NewFlagSet (sets : List (List String)) : FlagSet :=
  ⟨sets.flatten⟩

def kappAllowedDeployFlagSet : FlagSet :=
  NewFlagSet [kappAllowedSharedOpts, kappAllowedChangeOpts, [
    "--dangerous-allow-empty-list-of-resources",
    "--dangerous-override-ownership-of-existing-resources",
    "--into-ns",
    "--map-ns",
    "--logs",
    "--logs-all",
    "--app-changes-max-to-keep",
    "--labels",
    "--patch"]]

def kappAllowedInspectFlagSet : FlagSet :=
  NewFlagSet [kappAllowedSharedOpts, [
    "--raw",
    "--status",
    "--tree"]]

def kappAllowedDeleteFlagSet : FlagSet :=
  NewFlagSet [kappAllowedSharedOpts, kappAllowedChangeOpts]

/-- The characters of a flag argument up to (excluding) the first `=`. -/
def takeUntilEq : List Char → List Char
  | [] => []
  | c :: rest => if c = '=' then [] else c :: takeUntilEq rest

/-- Modelled from the spec: the flag name of a user-supplied argument is the
portion before `=` (an argument without `=` is its own name). -/
def flagName (arg : String) : String :=
  String.mk (takeUntilEq arg.data)

/-- A token is a flag (rather than a value token following a flag) when it
starts with `--`. Modelled from the spec: value tokens are not checked. -/
def isFlagToken (arg : String) : Bool :=
  match arg.data with
  | '-' :: '-' :: _ => true
  | _ => false

/-- Modelled from the spec: `BuildInvocation` — the gate checking every
user-supplied flag name against the operation's allow-list; the first flag
whose name is not allowed causes the whole invocation to be rejected with an
error naming it; if every flag is allowed the arguments pass through
unchanged. -/
def buildInvocation (fs : FlagSet) (args : List String) : Except String (List String) :=
  match args.find? (fun a => isFlagToken a && !(fs.allowed.contains (flagName a))) with
  | some bad => Except.error ("Unexpected flag: " ++ bad)
  | none => Except.ok args

/-! ## Finalizer hooks (`pkg/pkgrepository`, `part_000`) -/

/-- Modelled from the spec: the current deletion finalizer name (the concrete
value is not in the excerpt; only its identity matters). -/
def deleteFinalizerName : String := "finalizers.kapp-ctrl.k8s.io/delete"

/-- Modelled from the spec: the deprecated finalizer name added by previous
versions of kapp-controller; removed on unblock for backward compatibility. -/
def deletePrevFinalizerName : String := "finalizers.kapp-ctrl.k8s.io/delete-prev"

/-- Modelled from the spec: helper `containsString` (not in the excerpt) —
whether a string slice contains the given string. -/
def containsString : List String → String → Bool
  | [], _ => false
  | x :: rest, s => x == s || containsString rest s

/-- Modelled from the spec: helper `removeString` (not in the excerpt) —
returns the slice with every occurrence of the given string removed,
preserving the order of the remaining entries. -/
def removeString : List String → String → List String
  | [], _ => []
  | x :: rest, s => if x == s then removeString rest s else x :: removeString rest s

/-- `CRDApp.blockDeletion`: the effect on the resource's finalizer list,
paired with whether a write was performed. If the finalizer is already
present it returns success without a write; otherwise it read-modify-writes,
appending the finalizer if (still) absent. -/
def blockDeletion (finalizers : List String) : List String × Bool :=
  if containsString finalizers deleteFinalizerName then
    (finalizers, false)
  else
    (if containsString finalizers deleteFinalizerName then finalizers
     else finalizers ++ [deleteFinalizerName], true)

/-- `CRDApp.unblockDeletion`: the effect on the resource's finalizer list —
removes the current finalizer name, then the deprecated previous one. -/
def unblockDeletion (finalizers : List String) : List String :=
  removeString (removeString finalizers deleteFinalizerName) deletePrevFinalizerName

/-! ## Status-update retry loop (`CRDApp.updateStatus`, `part_000`) -/

/-- The `for i := 0; i < 5; i++` loop body of `CRDApp.updateStatus`:
`attemptResult i` is the outcome of the call to `updateStatusOnce` at loop
index `i` (`none` = success, `some e` = error `e`); the loop returns `none`
as soon as an attempt succeeds, else carries the last error. -/
def updateStatusLoop (attemptResult : Nat → Option String) :
    List Nat → Option String → Option String
  | [], lastErr => lastErr
  | i :: rest, _ =>
    match attemptResult i with
    | none => none
    | some e => updateStatusLoop attemptResult rest (some e)

/-- `CRDApp.updateStatus`: runs `updateStatusOnce` at loop indices 0,1,2,3,4
(at most 5 attempts), returning `none` as soon as an attempt succeeds, else
the last attempt's error. -/
def updateStatus (attemptResult : Nat → Option String) : Option String :=
  updateStatusLoop attemptResult [0, 1, 2, 3, 4] none

/-! ## App status data model (`kcv1alpha1`) -/

/-- `kcv1alpha1.AppStatusFetch` — the fields read by the watcher. Timestamps
are Unix seconds. -/
structure AppStatusFetch where
  exitCode : Int
  startedAt : Int
  updatedAt : Int
  stdout : String
  stderr : String
deriving Repr, DecidableEq

/-- `kcv1alpha1.AppStatusTemplate` — the fields read by the watcher. -/
structure AppStatusTemplate where
  exitCode : Int
  startedAt : Int
  updatedAt : Int
  stdout : String
  stderr : String
deriving Repr, DecidableEq

/-- `kcv1alpha1.AppStatusDeploy` — the fields read by the watcher; carries
`finished` and `error` in addition to the common stage fields. -/
structure AppStatusDeploy where
  exitCode : Int
  startedAt : Int
  updatedAt : Int
  stdout : String
  stderr : String
  finished : Bool
  error : String
deriving Repr, DecidableEq

/-- `kcv1alpha1` condition type constants (Go: typed string constants). -/
def Reconciling : String := "Reconciling"

def ReconcileSucceeded : String := "ReconcileSucceeded"

def ReconcileFailed : String := "ReconcileFailed"

def Deleting : String := "Deleting"

def DeleteFailed : String := "DeleteFailed"

/-- `corev1.ConditionTrue`. -/
def ConditionTrue : String := "True"

/-- An entry of `GenericStatus.Conditions`: `{Type, Status}` (the fields the
watcher reads). -/
structure AppCondition where
  type : String
  status : String
deriving Repr, DecidableEq

/-- `kcv1alpha1.AppStatus` — the fields read by the watcher. `fetch`,
`template`, `deploy` are `Option` to model Go nil pointers. -/
structure AppStatus where
  conditions : List AppCondition
  friendlyDescription : String
  fetch : Option AppStatusFetch
  template : Option AppStatusTemplate
  deploy : Option AppStatusDeploy
  consecutiveReconcileSuccesses : Nat
  consecutiveReconcileFailures : Nat
deriving Repr, DecidableEq

/-- An `AppStatus` with everything empty (Go zero value). -/
def emptyAppStatus : AppStatus :=
  ⟨[], "", none, none, none, 0, 0⟩

/-! ## The watcher (`cli/pkg/kctrl/cmd/app/app-watcher.go`) -/

/-- `AppStage` — the string-typed stage markers returned by
`printTillCurrent` (`fetchStage`, `templateStage`, `deployStage`,
`reconciled`, and the empty string). -/
inductive AppStage where
  | fetchStage
  | templateStage
  | deployStage
  | reconciled
  | emptyStage
deriving Repr, DecidableEq

/-- One call to `printLogLine`: the message, the message block, whether the
block is marked as an error, and the optional start time passed in. -/
structure LogLine where
  message : String
  messageBlock : String
  errorBlock : Bool
  startTime : Option Int
deriving Repr, DecidableEq

/-- The observable outcome of `printTillCurrent`: the log lines printed, the
`AppStage` returned, and the error returned (`some` holds the message the Go
error is built from). -/
structure WatchResult where
  lines : List LogLine
  stage : AppStage
  err : Option String
deriving Repr, DecidableEq

/-- `AppWatcher.hasReconciled`: whether some condition has type
`ReconcileSucceeded` with status true. -/
def hasReconciled (status : AppStatus) : Bool :=
  status.conditions.any (fun c => c.type == ReconcileSucceeded && c.status == ConditionTrue)

/-- The `status.Deploy != nil` block of `printTillCurrent` (lines 65–75):
report "Deploy failed" when `ExitCode != 0 && StartedAt.Unix() <
UpdatedAt.Unix()` (strict), else "Deploy succeeded" when reconciled, else
"Deploy started"; falls through to `return "", nil` when `Deploy` is nil. -/
def deployBlock (status : AppStatus) : WatchResult :=
  match status.deploy with
  | none => ⟨[], AppStage.emptyStage, none⟩
  | some d =>
    if d.exitCode ≠ 0 ∧ d.startedAt < d.updatedAt then
      ⟨[⟨"Deploy failed", d.stderr, true, none⟩], AppStage.deployStage, some d.error⟩
    else if hasReconciled status then
      ⟨[⟨"Deploy succeeded", d.stdout, false, some d.updatedAt⟩], AppStage.reconciled, none⟩
    else
      ⟨[⟨"Deploy started", d.stdout, false, some d.startedAt⟩], AppStage.emptyStage, none⟩

/-- The `status.Template != nil` block of `printTillCurrent` (lines 53–63).
Note that the failure and staleness guards dereference and compare
`status.Fetch.StartedAt` (the Fetch stage's start time), not Template's own
`StartedAt`; when `status.Fetch` is nil this is a Go nil-pointer panic,
modelled as `none`. -/
def templateBlock (status : AppStatus) : Option WatchResult :=
  match status.template with
  | none => some (deployBlock status)
  | some t =>
    match status.fetch with
    | none => none
    | some f =>
      if t.exitCode ≠ 0 ∧ f.startedAt < t.updatedAt then
        some ⟨[⟨"Template failed", t.stderr, true, none⟩], AppStage.templateStage, some t.stderr⟩
      else if f.startedAt > t.updatedAt then
        some ⟨[⟨"Template started", "", false, none⟩], AppStage.templateStage, none⟩
      else
        some { deployBlock status with
               lines := ⟨"Template succeeded", "", false, some t.updatedAt⟩ ::
                 (deployBlock status).lines }

/-- `AppWatcher.printTillCurrent` (lines 40–78): the Fetch block reports
"Fetch failed" when `ExitCode != 0 && UpdatedAt.Unix() >= StartedAt.Unix()`,
"Fetch started" when `StartedAt.After(UpdatedAt)`, else "Fetch succeeded" and
continues into the Template and Deploy blocks. -/
def printTillCurrent (status : AppStatus) : Option WatchResult :=
  match status.fetch with
  | none => templateBlock status
  | some f =>
    if f.exitCode ≠ 0 ∧ f.updatedAt ≥ f.startedAt then
      some ⟨[⟨"Fetch failed", f.stderr, true, none⟩], AppStage.fetchStage, some f.stderr⟩
    else if f.startedAt > f.updatedAt then
      some ⟨[⟨"Fetch started", "", false, some f.startedAt⟩], AppStage.fetchStage, none⟩
    else
      (templateBlock status).map (fun r =>
        { r with lines := ⟨"Fetch succeeded", f.stdout, false, some f.updatedAt⟩ :: r.lines })

/-- The `status.Fetch != nil` block of `printUpdate` (lines 81–92), returning
the printed lines and whether `stopWatch` was called. When the failure branch
fires it prints `status.Template.Stderr` (sic, line 87) — a nil-pointer panic
(`none`) when `status.Template` is nil — and then still prints "Fetch
succeeded" (no else). -/
def printUpdateFetch (oldStatus status : AppStatus) : Option (List LogLine × Bool) :=
  match status.fetch with
  | none => some ([], false)
  | some f =>
    let startedLines : List LogLine :=
      match oldStatus.fetch with
      | none => [⟨"Fetch started", "", false, none⟩]
      | some old =>
        if old.startedAt ≠ f.startedAt ∧ f.updatedAt ≤ f.startedAt then
          [⟨"Fetch started", "", false, none⟩]
        else []
    let changed : Bool :=
      match oldStatus.fetch with
      | none => true
      | some old => old.updatedAt != f.updatedAt
    if changed then
      if f.exitCode ≠ 0 ∧ f.updatedAt ≥ f.startedAt then
        match status.template with
        | none => none
        | some t =>
          some (startedLines ++ [⟨"Fetch failed", t.stderr, true, none⟩,
            ⟨"Fetch succeeded", f.stdout, false, none⟩], true)
      else
        some (startedLines ++ [⟨"Fetch succeeded", f.stdout, false, none⟩], false)
    else
      some (startedLines, false)

/-- The `status.Template != nil` block of `printUpdate` (lines 93–101):
"Template failed" (then stop) when `ExitCode != 0`, and "Template succeeded"
printed in either case (no else). -/
def printUpdateTemplate (oldStatus status : AppStatus) : List LogLine × Bool :=
  match status.template with
  | none => ([], false)
  | some t =>
    let changed : Bool :=
      match oldStatus.template with
      | none => true
      | some old => old.updatedAt != t.updatedAt
    if changed then
      if t.exitCode ≠ 0 then
        ([⟨"Template failed", t.stderr, true, none⟩,
          ⟨"Template succeeded", "", false, none⟩], true)
      else
        ([⟨"Template succeeded", "", false, none⟩], false)
    else ([], false)

/-- The `status.Deploy != nil` block of `printUpdate` (lines 102–113). The
failure guard reads `status.Template.ExitCode` (sic, line 107) — a
nil-pointer panic (`none`) when `status.Template` is nil — together with
`status.Deploy.Finished`; "Deploy progressing" is printed in either case. -/
def printUpdateDeploy (oldStatus status : AppStatus) : Option (List LogLine × Bool) :=
  match status.deploy with
  | none => some ([], false)
  | some d =>
    let startedLines : List LogLine :=
      match oldStatus.deploy with
      | none => [⟨"Deploy started", "", false, none⟩]
      | some old =>
        if old.startedAt ≠ d.startedAt then [⟨"Deploy started", "", false, none⟩] else []
    let changed : Bool :=
      match oldStatus.deploy with
      | none => true
      | some old => old.updatedAt != d.updatedAt
    if changed then
      match status.template with
      | none => none
      | some t =>
        if t.exitCode ≠ 0 ∧ d.finished then
          some (startedLines ++ [⟨"Deploy failed", d.stderr, true, none⟩,
            ⟨"Deploy progressing", d.stdout, false, none⟩], true)
        else
          some (startedLines ++ [⟨"Deploy progressing", d.stdout, false, none⟩], false)
    else
      some (startedLines, false)

/-- `AppWatcher.printUpdate` (lines 80–118): the three stage blocks in order,
then "App reconciled" (and stop) when `hasReconciled`. Returns the printed
lines and whether `stopWatch` was called. -/
def printUpdate (oldStatus status : AppStatus) : Option (List LogLine × Bool) := do
  let (l1, s1) ← printUpdateFetch oldStatus status
  let (l2, s2) := printUpdateTemplate oldStatus status
  let (l3, s3) ← printUpdateDeploy oldStatus status
  let (l4, s4) :=
    if hasReconciled status then ([⟨"App reconciled", "", false, none⟩], true)
    else ([], false)
  pure (l1 ++ l2 ++ l3 ++ l4, s1 || s2 || s3 || s4)

/-- `AppWatcher.metricString` (lines 147–155). -/
def metricString (status : AppStatus) : String :=
  if status.consecutiveReconcileFailures ≠ 0 then
    toString status.consecutiveReconcileFailures ++ " consecutive failures"
  else if status.consecutiveReconcileSuccesses ≠ 0 then
    toString status.consecutiveReconcileSuccesses ++ " consecutive successes"
  else
    "0 consecutive failures | 0 consecutive successes"

/-- Terminal colouring (`color.GreenString`) modelled as the identity on the
text. -/
def greenString (s : String) : String := s

/-- Terminal colouring (`color.RedString`) modelled as the identity on the
text. -/
def redString (s : String) : String := s

/-- `AppWatcher.statusString` (lines 157–173): switches on
`status.Conditions[0].Type` — an out-of-bounds index (Go panic, modelled as
`none`) when `Conditions` is empty — falling back to `FriendlyDescription`
for unrecognized condition types. -/
def statusString (status : AppStatus) : Option String :=
  match status.conditions with
  | [] => none
  | c :: _ =>
    some (
      if c.type == Reconciling then "Reconciling"
      else if c.type == ReconcileSucceeded then greenString "Reconcile succeeded"
      else if c.type == ReconcileFailed then redString "Reconcile failed"
      else if c.type == Deleting then "Deleting"
      else if c.type == DeleteFailed then redString "Deletion failed"
      else status.friendlyDescription)

/-! ## Consecutive-counter state machine (engine, modelled from the spec) -/

/-- The terminal outcome of one full reconcile. -/
inductive ReconcileOutcome where
  | success
  | failure
deriving Repr, DecidableEq

/-- Modelled from the spec: the reconciliation engine's counter update (the
engine itself is not in the excerpt) — "on terminal success of a full
reconcile, increments `ConsecutiveReconcileSuccesses` and zeroes
`ConsecutiveReconcileFailures`; symmetric on terminal failure". State is the
pair (successes, failures). -/
def stepCounters : Nat × Nat → ReconcileOutcome → Nat × Nat
  | (s, _), ReconcileOutcome.success => (s + 1, 0)
  | (_, f), ReconcileOutcome.failure => (0, f + 1)

/-- The counters reached from the zero-valued initial status after a sequence
of reconcile outcomes. -/
def runCounters (outcomes : List ReconcileOutcome) : Nat × Nat :=
  outcomes.foldl stepCounters (0, 0)

/-- Whether a watcher outcome contains a log line with the given message
(`none`, a Go panic, reports nothing). -/
def reportsMsg : Option WatchResult → String → Bool
  | none, _ => false
  | some r, m => r.lines.any (fun l => l.message == m)

/-- A Deploy stage status with non-zero exit code whose `UpdatedAt` equals
its `StartedAt`. -/
def deployEqualTimes : AppStatusDeploy :=
  ⟨1, 5, 5, "", "deploy-stderr", true, "deploy-error"⟩

/-- An `AppStatus` holding only `deployEqualTimes`. -/
def deployEqualTimesStatus : AppStatus :=
  ⟨[], "", none, none, some deployEqualTimes, 0, 0⟩

/-- A succeeded Fetch stage that started (and finished) at time 10. -/
def fetchDoneAt10 : AppStatusFetch := ⟨0, 10, 10, "", ""⟩

/-- A Template stage with non-zero exit code, `StartedAt = 0`,
`UpdatedAt = 5` — failed by its own timestamps. -/
def templateFailedOwnTimes : AppStatusTemplate := ⟨1, 0, 5, "", "tmpl-boom"⟩

/-- An `AppStatus` whose Template stage is failed by its own timestamps while
the Fetch stage started later (at 10). -/
def templateFailedStatus : AppStatus :=
  ⟨[], "", some fetchDoneAt10, some templateFailedOwnTimes, none, 0, 0⟩

/-- A failed Fetch stage whose stderr is "fetch-stderr". -/
def fetchFailedStderr : AppStatusFetch := ⟨1, 0, 1, "", "fetch-stderr"⟩

/-- A succeeded Template stage whose stderr is "template-stderr". -/
def templateOkStderr : AppStatusTemplate := ⟨0, 0, 0, "", "template-stderr"⟩

/-- An `AppStatus` with a failed Fetch stage and a Template stage carrying a
different stderr. -/
def fetchFailedStatus : AppStatus :=
  ⟨[], "", some fetchFailedStderr, some templateOkStderr, none, 0, 0⟩

/-! ## Helper lemmas -/

theorem containsString_iff (l : List String) (s : String) :
    containsString l s = true ↔ s ∈ l := by
  induction l with
  | nil => simp [containsString]
  | cons x rest ih =>
    simp only [containsString, Bool.or_eq_true, beq_iff_eq, ih, List.mem_cons]
    exact or_congr_left eq_comm

theorem removeString_eq_filter (l : List String) (s : String) :
    removeString l s = l.filter (fun x => !(x == s)) := by
  induction l with
  | nil => rfl
  | cons x rest ih =>
    by_cases h : x = s <;> simp [removeString, List.filter_cons, h, ih]

/-! ## Claims about the flag gate -/

/-- C3: for every operation's flag set and every argument sequence, if some
flag token's name is not in the allow-list, the whole invocation is rejected
with an error naming an offending flag (no sanitized list is produced); if
every flag token's name is allowed, the arguments are accepted unchanged. For
the Deploy flag set, `["--wait", "--danger-flag"]` is rejected naming
`--danger-flag` and `["--wait"]` is accepted unchanged. -/
theorem C3_flag_gate :
    (∀ fs : FlagSet, ∀ args : List String,
      (∀ a ∈ args, isFlagToken a = true → fs.allowed.contains (flagName a) = true) →
      buildInvocation fs args = Except.ok args)
  ∧ (∀ fs : FlagSet, ∀ args : List String, ∀ a ∈ args,
      isFlagToken a = true → fs.allowed.contains (flagName a) = false →
      ∃ bad, bad ∈ args ∧ isFlagToken bad = true ∧
        fs.allowed.contains (flagName bad) = false ∧
        buildInvocation fs args = Except.error ("Unexpected flag: " ++ bad))
  ∧ buildInvocation kappAllowedDeployFlagSet ["--wait", "--danger-flag"]
      = Except.error "Unexpected flag: --danger-flag"
  ∧ buildInvocation kappAllowedDeployFlagSet ["--wait"] = Except.ok ["--wait"] := by
  refine ⟨?_, ?_, by rfl, by rfl⟩
  · intro fs args h
    unfold buildInvocation
    have hnone : args.find? (fun a => isFlagToken a && !(fs.allowed.contains (flagName a)))
        = none := by
      rw [List.find?_eq_none]
      intro x hx
      by_cases hfl : isFlagToken x = true
      · rw [hfl, h x hx hfl]
        decide
      · simp [hfl]
    rw [hnone]
  · intro fs args a ha hflag hnot
    rcases hfind : args.find? (fun a => isFlagToken a && !(fs.allowed.contains (flagName a))) with
      _ | bad
    · rw [List.find?_eq_none] at hfind
      exact absurd (show (isFlagToken a && !(fs.allowed.contains (flagName a))) = true by
        rw [hflag, hnot]; rfl) (hfind a ha)
    · have hp := List.find?_some hfind
      simp only [Bool.and_eq_true, Bool.not_eq_true'] at hp
      exact ⟨bad, List.mem_of_find?_eq_some hfind, hp.1, hp.2, by
        unfold buildInvocation; rw [hfind]⟩

/-- C3 witness: the gate evaluated at concrete inputs through the theorem. -/
theorem C3_flag_gate_witness :
    buildInvocation kappAllowedDeleteFlagSet ["--wait"] = Except.ok ["--wait"]
  ∧ ∃ bad, bad ∈ ["--evil"] ∧ isFlagToken bad = true ∧
      kappAllowedDeleteFlagSet.allowed.contains (flagName bad) = false ∧
      buildInvocation kappAllowedDeleteFlagSet ["--evil"]
        = Except.error ("Unexpected flag: " ++ bad) :=
  ⟨C3_flag_gate.1 kappAllowedDeleteFlagSet ["--wait"] (by decide),
   C3_flag_gate.2.1 kappAllowedDeleteFlagSet ["--evil"] "--evil" (by decide) (by decide)
     (by decide)⟩

/-- C4: the Deploy allow-list is shared ∪ change ∪ deploy extras, the Delete
allow-list is shared ∪ change with no extras, the Inspect allow-list is
shared ∪ {--raw, --status, --tree} and contains no change flag; `--wait` is
allowed for Deploy and Delete but not for Inspect. -/
theorem C4_flag_set_composition :
    kappAllowedDeployFlagSet.allowed
      = kappAllowedSharedOpts ++ kappAllowedChangeOpts ++ [
        "--dangerous-allow-empty-list-of-resources",
        "--dangerous-override-ownership-of-existing-resources",
        "--into-ns",
        "--map-ns",
        "--logs",
        "--logs-all",
        "--app-changes-max-to-keep",
        "--labels",
        "--patch"]
  ∧ kappAllowedDeleteFlagSet.allowed = kappAllowedSharedOpts ++ kappAllowedChangeOpts
  ∧ kappAllowedInspectFlagSet.allowed
      = kappAllowedSharedOpts ++ ["--raw", "--status", "--tree"]
  ∧ (∀ c ∈ kappAllowedChangeOpts, c ∉ kappAllowedInspectFlagSet.allowed)
  ∧ "--wait" ∈ kappAllowedDeployFlagSet.allowed
  ∧ "--wait" ∈ kappAllowedDeleteFlagSet.allowed
  ∧ "--wait" ∉ kappAllowedInspectFlagSet.allowed :=
  ⟨by rfl, by rfl, by rfl, by decide, by decide, by decide, by decide⟩

/-- C4 witness: `--wait` is a change flag, hence (through the theorem)
excluded from the Inspect allow-list. -/
theorem C4_flag_set_composition_witness :
    "--wait" ∈ kappAllowedChangeOpts ∧ "--wait" ∉ kappAllowedInspectFlagSet.allowed :=
  ⟨by decide, C4_flag_set_composition.2.2.2.1 "--wait" (by decide)⟩

/-! ## Claim about the status-update retry loop -/

/-- C5: `updateStatus` consults only the first 5 attempt outcomes; with the
first 4 attempts failing and the 5th succeeding it returns success; with all
5 attempts failing it returns the 5th attempt's error. -/
theorem C5_updateStatus_retry :
    (∀ f : Nat → Option String, (∀ i, i < 5 → (f i).isSome = true) → updateStatus f = f 4)
  ∧ (∀ f : Nat → Option String, (∀ i, i < 4 → (f i).isSome = true) → f 4 = none →
      updateStatus f = none)
  ∧ (∀ f g : Nat → Option String, (∀ i, i < 5 → f i = g i) →
      updateStatus f = updateStatus g) := by
  refine ⟨?_, ?_, ?_⟩
  · intro f h
    obtain ⟨e0, h0⟩ := Option.isSome_iff_exists.mp (h 0 (by omega))
    obtain ⟨e1, h1⟩ := Option.isSome_iff_exists.mp (h 1 (by omega))
    obtain ⟨e2, h2⟩ := Option.isSome_iff_exists.mp (h 2 (by omega))
    obtain ⟨e3, h3⟩ := Option.isSome_iff_exists.mp (h 3 (by omega))
    obtain ⟨e4, h4⟩ := Option.isSome_iff_exists.mp (h 4 (by omega))
    simp [updateStatus, updateStatusLoop, h0, h1, h2, h3, h4]
  · intro f h h4
    obtain ⟨e0, h0⟩ := Option.isSome_iff_exists.mp (h 0 (by omega))
    obtain ⟨e1, h1⟩ := Option.isSome_iff_exists.mp (h 1 (by omega))
    obtain ⟨e2, h2⟩ := Option.isSome_iff_exists.mp (h 2 (by omega))
    obtain ⟨e3, h3⟩ := Option.isSome_iff_exists.mp (h 3 (by omega))
    simp [updateStatus, updateStatusLoop, h0, h1, h2, h3, h4]
  · intro f g h
    simp [updateStatus, updateStatusLoop, h 0 (by omega), h 1 (by omega), h 2 (by omega),
      h 3 (by omega), h 4 (by omega)]

/-- C5 witness: 4 conflicts then success gives success; 5 conflicts give the
last conflict's error. -/
theorem C5_updateStatus_retry_witness :
    updateStatus (fun i => if i < 4 then some ("conflict " ++ toString i) else none) = none
  ∧ updateStatus (fun i => some ("conflict " ++ toString i)) = some "conflict 4" := by
  constructor
  · exact C5_updateStatus_retry.2.1 _ (by decide) (by simp)
  · have h := C5_updateStatus_retry.1 (fun i => some ("conflict " ++ toString i))
      (fun i _ => by simp)
    simpa using h

/-! ## Claims about the finalizer hooks -/

/-- C6 counterexample: starting from a finalizer list that already holds two
copies of the finalizer name, `blockDeletion` is a no-op both times, so two
calls leave two copies — not exactly one as the claim states for every
starting list. -/
theorem C6_duplicate_finalizers_counterexample :
    (((blockDeletion (blockDeletion [deleteFinalizerName, deleteFinalizerName]).1).1).count
      deleteFinalizerName) = 2 := by decide

/-- C6 (amended): `blockDeletion` returns success without a write when the
finalizer is already present; and for every starting list holding at most one
copy of the finalizer name, two consecutive calls leave exactly one copy. -/
theorem C6_blockDeletion_idempotent (fins : List String) :
    (containsString fins deleteFinalizerName = true → blockDeletion fins = (fins, false))
  ∧ (fins.count deleteFinalizerName ≤ 1 →
      ((blockDeletion (blockDeletion fins).1).1).count deleteFinalizerName = 1) := by
  constructor
  · intro h
    simp [blockDeletion, h]
  · intro hcount
    by_cases h : containsString fins deleteFinalizerName = true
    · have hmem : deleteFinalizerName ∈ fins := (containsString_iff _ _).mp h
      simp [blockDeletion, h]
      have hpos : 0 < fins.count deleteFinalizerName := List.count_pos_iff.mpr hmem
      omega
    · have hmem : deleteFinalizerName ∉ fins := fun hm =>
        h ((containsString_iff _ _).mpr hm)
      have hc2 : containsString (fins ++ [deleteFinalizerName]) deleteFinalizerName = true :=
        (containsString_iff _ _).mpr (by simp)
      simp [blockDeletion, h, hc2, List.count_append, List.count_eq_zero.mpr hmem]

/-- C6 witness: the theorem applied at concrete finalizer lists. -/
theorem C6_blockDeletion_idempotent_witness :
    blockDeletion [deleteFinalizerName] = ([deleteFinalizerName], false)
  ∧ ((blockDeletion (blockDeletion ["other-finalizer"]).1).1).count deleteFinalizerName = 1 :=
  ⟨(C6_blockDeletion_idempotent [deleteFinalizerName]).1 (by decide),
   (C6_blockDeletion_idempotent ["other-finalizer"]).2 (by decide)⟩

/-- C7: for every starting finalizer list, `unblockDeletion` leaves no
occurrence of the current or the deprecated finalizer name and preserves all
unrelated entries in order (it is exactly the filter dropping the two
names). -/
theorem C7_unblockDeletion_removes_both (fins : List String) :
    deleteFinalizerName ∉ unblockDeletion fins
  ∧ deletePrevFinalizerName ∉ unblockDeletion fins
  ∧ unblockDeletion fins
      = fins.filter (fun x => !(x == deleteFinalizerName) && !(x == deletePrevFinalizerName)) := by
  have h : unblockDeletion fins
      = fins.filter (fun x => !(x == deleteFinalizerName) && !(x == deletePrevFinalizerName)) := by
    simp only [unblockDeletion, removeString_eq_filter, List.filter_filter]
    exact List.filter_congr fun x _ => Bool.and_comm _ _
  refine ⟨?_, ?_, h⟩ <;> rw [h] <;> simp [List.mem_filter]

theorem deployBlock_message_mem (st : AppStatus) (l : LogLine)
    (hl : l ∈ (deployBlock st).lines) :
    l.message = "Deploy failed" ∨ l.message = "Deploy succeeded" ∨
    l.message = "Deploy started" := by
  unfold deployBlock at hl
  split at hl
  · simp at hl
  · split at hl
    · simp at hl
      subst hl
      simp
    · split at hl
      · simp at hl
        subst hl
        simp
      · simp at hl
        subst hl
        simp

theorem templateBlock_no_fetch_failed (st : AppStatus) (r : WatchResult)
    (hr : templateBlock st = some r) (l : LogLine) (hl : l ∈ r.lines) :
    ¬ l.message = "Fetch failed" := by
  intro hmsg
  unfold templateBlock at hr
  split at hr
  · cases hr
    rcases deployBlock_message_mem st l hl with h | h | h <;> rw [hmsg] at h <;> simp at h
  · split at hr
    · exact Option.noConfusion hr
    · split at hr
      · cases hr
        simp at hl
        rw [hl] at hmsg
        simp at hmsg
      · split at hr
        · cases hr
          simp at hl
          rw [hl] at hmsg
          simp at hmsg
        · cases hr
          simp at hl
          rcases hl with hl | hl
          · rw [hl] at hmsg
            simp at hmsg
          · rcases deployBlock_message_mem st l hl with h | h | h <;>
              rw [hmsg] at h <;> simp at h

/-! ## Claims about the status tailer -/

/-- C1 counterexample: a Deploy stage with non-zero exit code whose
`UpdatedAt` equals its `StartedAt` (so `UpdatedAt` is not earlier than
`StartedAt`) is NOT reported failed by `printTillCurrent` — it falls through
to "Deploy started" — because the Deploy guard uses the strict comparison
`StartedAt.Unix() < UpdatedAt.Unix()`. -/
theorem C1_deploy_equal_timestamps_not_failed :
    (deployEqualTimes.exitCode ≠ 0 ∧ deployEqualTimes.updatedAt ≥ deployEqualTimes.startedAt)
  ∧ printTillCurrent deployEqualTimesStatus
      = some ⟨[⟨"Deploy started", "", false, some 5⟩], AppStage.emptyStage, none⟩
  ∧ reportsMsg (printTillCurrent deployEqualTimesStatus) "Deploy failed" = false :=
  ⟨by decide, by rfl, by rfl⟩

/-- C1 (amended): in `printTillCurrent`, "Fetch failed" is reported exactly
when `Fetch.ExitCode ≠ 0` and `Fetch.UpdatedAt ≥ Fetch.StartedAt`
(non-strict), while "Deploy failed" is reported exactly when
`Deploy.ExitCode ≠ 0` and `Deploy.StartedAt < Deploy.UpdatedAt` (strict) —
each on that stage's own timestamps. -/
theorem C1_stage_failed_iff :
    (∀ st : AppStatus, ∀ f : AppStatusFetch, st.fetch = some f →
      (reportsMsg (printTillCurrent st) "Fetch failed" = true ↔
        f.exitCode ≠ 0 ∧ f.updatedAt ≥ f.startedAt))
  ∧ (∀ st : AppStatus, ∀ d : AppStatusDeploy,
      st.fetch = none → st.template = none → st.deploy = some d →
      (reportsMsg (printTillCurrent st) "Deploy failed" = true ↔
        d.exitCode ≠ 0 ∧ d.startedAt < d.updatedAt)) := by
  constructor
  · intro st f hf
    obtain ⟨conds, desc, fe, te, de, cs, cf⟩ := st
    simp only at hf
    subst hf
    constructor
    · intro hrep
      by_contra hcond
      simp only [printTillCurrent] at hrep
      rw [if_neg hcond] at hrep
      by_cases hstart : f.startedAt > f.updatedAt
      · rw [if_pos hstart] at hrep
        simp [reportsMsg] at hrep
      · rw [if_neg hstart] at hrep
        cases htb : templateBlock ⟨conds, desc, some f, te, de, cs, cf⟩ with
        | none =>
          rw [htb] at hrep
          simp [reportsMsg] at hrep
        | some r =>
          rw [htb] at hrep
          simp [reportsMsg, List.any_eq_true] at hrep
          rcases hrep with ⟨l, hl, hmsg⟩
          exact templateBlock_no_fetch_failed _ r htb l hl hmsg
    · intro hcond
      simp only [printTillCurrent]
      rw [if_pos hcond]
      simp [reportsMsg]
  · intro st d hf ht hd
    obtain ⟨conds, desc, fe, te, de, cs, cf⟩ := st
    simp only at hf ht hd
    subst hf
    subst ht
    subst hd
    simp only [printTillCurrent, templateBlock, deployBlock]
    by_cases hcond : d.exitCode ≠ 0 ∧ d.startedAt < d.updatedAt
    · rw [if_pos hcond]
      simp [reportsMsg, hcond]
    · rw [if_neg hcond]
      by_cases hrec :
          hasReconciled ⟨conds, desc, none, none, some d, cs, cf⟩ = true
      · simp [reportsMsg, hrec, hcond]
      · simp only [Bool.not_eq_true] at hrec
        simp [reportsMsg, hrec, hcond]

/-- C1 witness: the amended theorem applied at concrete statuses. -/
theorem C1_stage_failed_iff_witness :
    reportsMsg (printTillCurrent fetchFailedStatus) "Fetch failed" = true
  ∧ reportsMsg (printTillCurrent deployEqualTimesStatus) "Deploy failed" = false := by
  constructor
  · exact (C1_stage_failed_iff.1 fetchFailedStatus fetchFailedStderr rfl).mpr (by decide)
  · have h := C1_stage_failed_iff.2 deployEqualTimesStatus deployEqualTimes rfl rfl rfl
    rw [Bool.eq_false_iff]
    intro htrue
    exact absurd (h.mp htrue) (by decide)

/-- C2: in `printTillCurrent`, the Template stage's failure and staleness
guards compare `Fetch.StartedAt` against `Template.UpdatedAt` — not
Template's own `StartedAt`. At the failing input, Template has
`ExitCode = 1`, `StartedAt = 0`, `UpdatedAt = 5` (failed by its own
timestamps), yet because Fetch started at 10 the code reports
"Template started" and no "Template failed". -/
theorem C2_template_gated_on_fetch_startedAt :
    (templateFailedOwnTimes.exitCode ≠ 0 ∧
      templateFailedOwnTimes.updatedAt ≥ templateFailedOwnTimes.startedAt)
  ∧ printTillCurrent templateFailedStatus
      = some ⟨[⟨"Fetch succeeded", "", false, some 10⟩, ⟨"Template started", "", false, none⟩],
          AppStage.templateStage, none⟩
  ∧ reportsMsg (printTillCurrent templateFailedStatus) "Template failed" = false :=
  ⟨by decide, by rfl, by rfl⟩

/-- C8: at the failing input, `printUpdate` reports "Fetch failed" but the
message block surfaced with it is `Template.Stderr` ("template-stderr"), not
the failing Fetch stage's own `Stderr` ("fetch-stderr"). -/
theorem C8_printUpdate_fetch_failed_prints_template_stderr :
    printUpdate emptyAppStatus fetchFailedStatus
      = some ([⟨"Fetch started", "", false, none⟩,
               ⟨"Fetch failed", "template-stderr", true, none⟩,
               ⟨"Fetch succeeded", "", false, none⟩,
               ⟨"Template succeeded", "", false, none⟩], true)
  ∧ fetchFailedStderr.stderr = "fetch-stderr"
  ∧ templateOkStderr.stderr = "template-stderr"
  ∧ "template-stderr" ≠ "fetch-stderr" :=
  ⟨by rfl, by rfl, by rfl, by decide⟩

/-! ## Claims about the consecutive counters -/

theorem stepCounters_exactly_one (acc : Nat × Nat) (o : ReconcileOutcome) :
    ((stepCounters acc o).1 ≠ 0 ∧ (stepCounters acc o).2 = 0) ∨
    ((stepCounters acc o).1 = 0 ∧ (stepCounters acc o).2 ≠ 0) := by
  obtain ⟨s, f⟩ := acc
  cases o <;> simp [stepCounters]

theorem foldl_stepCounters_exactly_one (l : List ReconcileOutcome) (acc : Nat × Nat)
    (hl : l ≠ []) :
    ((l.foldl stepCounters acc).1 ≠ 0 ∧ (l.foldl stepCounters acc).2 = 0) ∨
    ((l.foldl stepCounters acc).1 = 0 ∧ (l.foldl stepCounters acc).2 ≠ 0) := by
  induction l generalizing acc with
  | nil => exact absurd rfl hl
  | cons a rest ih =>
    rw [List.foldl_cons]
    cases hr : rest with
    | nil =>
      subst hr
      simpa using stepCounters_exactly_one acc a
    | cons b rest2 =>
      subst hr
      exact ih (stepCounters acc a) (by simp)

/-- C9 counterexample: the initial status (no reconcile outcome yet) is
reachable and has both counters zero, so "exactly one of the two is non-zero
at any time" fails there; `metricString` has an explicit branch for this
both-zero state. -/
theorem C9_initial_counters_both_zero :
    runCounters [] = (0, 0)
  ∧ ¬(((runCounters []).1 ≠ 0 ∧ (runCounters []).2 = 0) ∨
      ((runCounters []).1 = 0 ∧ (runCounters []).2 ≠ 0))
  ∧ metricString emptyAppStatus = "0 consecutive failures | 0 consecutive successes" :=
  ⟨rfl, by decide, by rfl⟩

/-- C9 (amended): the counters are never simultaneously non-zero in any
reachable state, and after at least one reconcile outcome exactly one of the
two is non-zero. -/
theorem C9_counters_not_both_nonzero (outcomes : List ReconcileOutcome) :
    ((runCounters outcomes).1 = 0 ∨ (runCounters outcomes).2 = 0)
  ∧ (outcomes ≠ [] →
      ((runCounters outcomes).1 ≠ 0 ∧ (runCounters outcomes).2 = 0) ∨
      ((runCounters outcomes).1 = 0 ∧ (runCounters outcomes).2 ≠ 0)) := by
  constructor
  · cases houtcomes : outcomes with
    | nil => simp [runCounters]
    | cons a rest =>
      rcases foldl_stepCounters_exactly_one (a :: rest) (0, 0) (by simp) with h | h
      · exact Or.inr h.2
      · exact Or.inl h.1
  · intro h
    exact foldl_stepCounters_exactly_one outcomes (0, 0) h

/-- C9 witness: the amended theorem applied after one successful reconcile. -/
theorem C9_counters_not_both_nonzero_witness :
    ((runCounters [ReconcileOutcome.success]).1 ≠ 0 ∧
      (runCounters [ReconcileOutcome.success]).2 = 0) ∨
    ((runCounters [ReconcileOutcome.success]).1 = 0 ∧
      (runCounters [ReconcileOutcome.success]).2 ≠ 0) :=
  (C9_counters_not_both_nonzero [ReconcileOutcome.success]).2 (by simp)

/-! ## Claim about statusString -/

/-- C10: `statusString` switches on the first element of `Conditions`: it
returns a string for every non-empty `Conditions` (falling back to
`FriendlyDescription` exactly for unrecognized first condition types), while
for empty `Conditions` the index-0 access is out of bounds (Go panic,
modelled `none`), so the fallback is never reached there. -/
theorem C10_statusString_first_condition (st : AppStatus) :
    (st.conditions ≠ [] → (statusString st).isSome = true)
  ∧ (st.conditions = [] → statusString st = none)
  ∧ (∀ c rest, st.conditions = c :: rest →
      c.type ∉ ([Reconciling, ReconcileSucceeded, ReconcileFailed, Deleting, DeleteFailed] :
        List String) →
      statusString st = some st.friendlyDescription) := by
  refine ⟨?_, ?_, ?_⟩
  · intro h
    unfold statusString
    cases hc : st.conditions with
    | nil => exact absurd hc h
    | cons c rest => simp
  · intro h
    unfold statusString
    rw [h]
  · intro c rest hc hmem
    simp only [List.mem_cons, List.mem_singleton, not_or, List.not_mem_nil] at hmem
    unfold statusString
    rw [hc]
    simp [hmem.1, hmem.2.1, hmem.2.2.1, hmem.2.2.2.1, hmem.2.2.2.2.1]

/-- C10 witness: the theorem applied at concrete statuses. -/
theorem C10_statusString_first_condition_witness :
    (statusString ⟨[⟨"SomethingElse", "True"⟩], "falling back", none, none, none, 0, 0⟩
      = some "falling back")
  ∧ statusString emptyAppStatus = none := by
  constructor
  · exact (C10_statusString_first_condition
      ⟨[⟨"SomethingElse", "True"⟩], "falling back", none, none, none, 0, 0⟩).2.2
      ⟨"SomethingElse", "True"⟩ [] rfl (by decide)
  · exact (C10_statusString_first_condition emptyAppStatus).2.1 rfl

end KappCtrl
